import Mathlib

set_option linter.unusedVariables false
set_option maxRecDepth 8192

/-!
Shallow embedding of the vafast-swagger middleware (src/index.ts): a
documentation middleware that serves a rendered API-reference HTML page at a
configured UI path, a generated OpenAPI JSON document at a configured spec
path, and delegates every other request to the next handler.
-/

deriving instance DecidableEq for Except

namespace VafastSwagger

/-- Modelled from ECMAScript semantics: a JavaScript runtime value as it can
appear in the `Record<string, any>` configuration records of the source
(`scalarConfig`, `swaggerOptions`, `paths`, `components`).  The constructor
`func` stands for a function value (not JSON-serializable, silently skipped by
`JSON.stringify` inside objects), and `cyclic` stands for an object containing
a reference cycle, on which `JSON.stringify` throws a `TypeError`. -/
inductive JsValue where
  | null : JsValue
  | bool : Bool → JsValue
  | num : Int → JsValue
  | str : String → JsValue
  | arr : List JsValue → JsValue
  | obj : List (String × JsValue) → JsValue
  | func : JsValue
  | cyclic : JsValue

/-- Hexadecimal digit character used by the JSON string escape for control
characters. -/
def hexDigit (n : Nat) : String :=
  String.singleton (if n < 10 then Char.ofNat (48 + n) else Char.ofNat (87 + n))

/-- Modelled from ECMAScript semantics: the escaping a single character
undergoes inside a JSON string produced by `JSON.stringify`. -/
def jsonEscapeChar (c : Char) : String :=
  if c = '\x22' then "\\\x22"
  else if c = '\\' then "\\\\"
  else if c = '\n' then "\\n"
  else if c = '\r' then "\\r"
  else if c = '\t' then "\\t"
  else if c = '\x08' then "\\b"
  else if c = '\x0c' then "\\f"
  else if c.toNat < 32 then "\\u00" ++ hexDigit (c.toNat / 16) ++ hexDigit (c.toNat % 16)
  else String.singleton c

/-- Modelled from ECMAScript semantics: `JSON.stringify` quoting of a string. -/
def jsonQuote (s : String) : String :=
  "\x22" ++ String.join (s.data.map jsonEscapeChar) ++ "\x22"

mutual

/-- Modelled from ECMAScript semantics: `JSON.stringify` on a runtime value.
The result `Except.ok none` is the undefined result (for a top-level function
value), `Except.ok (some s)` is the JSON text, and `Except.error` is the
`TypeError` thrown on a value containing a reference cycle. -/
def jsStringify : JsValue → Except Unit (Option String)
  | JsValue.null => Except.ok (some "null")
  | JsValue.bool b => Except.ok (some (cond b "true" "false"))
  | JsValue.num n => Except.ok (some (toString n))
  | JsValue.str s => Except.ok (some (jsonQuote s))
  | JsValue.func => Except.ok none
  | JsValue.cyclic => Except.error ()
  | JsValue.arr xs =>
    match jsStringifyArr xs with
    | Except.error e => Except.error e
    | Except.ok vs => Except.ok (some ("[" ++ String.intercalate "," vs ++ "]"))
  | JsValue.obj kvs =>
    match jsStringifyObj kvs with
    | Except.error e => Except.error e
    | Except.ok vs => Except.ok (some ("\x7b" ++ String.intercalate "," vs ++ "\x7d"))

/-- Modelled from ECMAScript semantics: serialization of the elements of a
JSON array; an element that serializes to undefined appears as null. -/
def jsStringifyArr : List JsValue → Except Unit (List String)
  | [] => Except.ok []
  | v :: vs =>
    match jsStringify v with
    | Except.error e => Except.error e
    | Except.ok r =>
      match jsStringifyArr vs with
      | Except.error e => Except.error e
      | Except.ok rest => Except.ok (r.getD "null" :: rest)

/-- Modelled from ECMAScript semantics: serialization of the members of a
JSON object; a member whose value serializes to undefined (e.g. a function)
is silently dropped. -/
def jsStringifyObj : List (String × JsValue) → Except Unit (List String)
  | [] => Except.ok []
  | kv :: vs =>
    match jsStringify kv.2 with
    | Except.error e => Except.error e
    | Except.ok r =>
      match jsStringifyObj vs with
      | Except.error e => Except.error e
      | Except.ok rest =>
        match r with
        | none => Except.ok rest
        | some s => Except.ok ((jsonQuote kv.1 ++ ":" ++ s) :: rest)

end

/-- Modelled from ECMAScript semantics: the text contributed by a template
interpolation of a `JSON.stringify` call — an undefined result is rendered as
the text undefined, and a thrown error propagates out of the template. -/
def jsStringifyTL (v : JsValue) : Except Unit String :=
  match jsStringify v with
  | Except.error e => Except.error e
  | Except.ok none => Except.ok "undefined"
  | Except.ok (some s) => Except.ok s

/-- Embeds the `OpenAPIInfo` interface of src/index.ts (all fields optional). -/
structure OpenAPIInfo where
  title : Option String := none
  description : Option String := none
  version : Option String := none
deriving DecidableEq

/-- Embeds the `OpenAPITag` interface of src/index.ts. -/
structure OpenAPITag where
  name : String
  description : Option String := none
deriving DecidableEq

/-- Embeds the `OpenAPIDocumentation` interface of src/index.ts.  The
`components` and `paths` records are kept as raw key/value records of runtime
values, matching `Record<string, any>` for `paths` and the plain-object
`OpenAPIComponents` payload, both of which the source passes through without
inspection. -/
structure OpenAPIDocumentation where
  info : Option OpenAPIInfo := none
  tags : Option (List OpenAPITag) := none
  components : Option (List (String × JsValue)) := none
  paths : Option (List (String × JsValue)) := none

/-- The two values of the `provider` option of `VafastSwaggerConfig`. -/
inductive Provider where
  | scalar : Provider
  | swaggerUi : Provider
deriving DecidableEq

/-- The `theme` option of `VafastSwaggerConfig`: a string, or a pair of light
and dark theme strings.  The middleware casts it to a string when passing it
to the renderer, which ignores it. -/
inductive ThemeCfg where
  | str : String → ThemeCfg
  | lightDark : String → String → ThemeCfg

/-- Embeds the `VafastSwaggerConfig` interface of src/index.ts: every field is
optional; an absent field takes the default of the destructuring pattern in
`swagger` (see `resolveConfig`).  The `exclude` field (string, regular
expression, or array of those in the source) is kept abstractly as a list of
strings since nothing in the source ever reads it. -/
structure VafastSwaggerConfig where
  provider : Option Provider := none
  scalarVersion : Option String := none
  scalarCDN : Option String := none
  scalarConfig : Option (List (String × JsValue)) := none
  documentation : Option OpenAPIDocumentation := none
  version : Option String := none
  excludeStaticFile : Option Bool := none
  path : Option String := none
  specPath : Option String := none
  exclude : Option (List String) := none
  swaggerOptions : Option (List (String × JsValue)) := none
  theme : Option ThemeCfg := none
  autoDarkMode : Option Bool := none
  excludeMethods : Option (List String) := none
  excludeTags : Option (List String) := none

/-- An incoming HTTP request as the middleware observes it: the source reads
only `new URL(req.url).pathname`; the method is carried along untouched. -/
structure Request where
  method : String
  pathname : String

/-- The body of a response: an HTML page, a JSON document (kept structured, as
the `json` helper of the host framework receives it before serialization), or
anything else a downstream handler may produce. -/
inductive Body where
  | htmlBody : String → Body
  | jsonBody : JsValue → Body
  | rawBody : String → Body

/-- An HTTP response, modelled by its status, its content-type header (the
only header the specification speaks about), and its body. -/
structure Response where
  status : Nat
  contentType : String
  body : Body

/-- Modelled from the spec: the `html` helper imported from the vafast
framework (not part of this repository) wraps a string into a status-200
response with a text/html content-type. -/
def htmlResponse (content : String) : Response :=
  { status := 200, contentType := "text/html", body := Body.htmlBody content }

/-- Modelled from the spec: the `json` helper imported from the vafast
framework (not part of this repository) wraps a document into a status-200
response with an application/json content-type. -/
def json (doc : JsValue) : Response :=
  { status := 200, contentType := "application/json", body := Body.jsonBody doc }

/-- Models the JavaScript expression `x || d` for an optional string `x`: the
default is used both when the field is absent and when it is the empty string
(which is falsy in JavaScript). -/
def jsOrD : Option String → String → String
  | none, d => d
  | some s, d => if s = "" then d else s

/-- Models the JavaScript expression `s || d` for a present string `s`: the
default is used when `s` is the empty string. -/
def strOr (s d : String) : String :=
  if s = "" then d else s

/-- Embeds the entries of the JSON value produced for one `OpenAPITag`: a tag
is a plain object whose absent `description` member simply does not exist. -/
def tagToJson (t : OpenAPITag) : JsValue :=
  JsValue.obj (("name", JsValue.str t.name) ::
    (match t.description with
     | none => []
     | some d => [("description", JsValue.str d)]))

/-- Embeds `createOpenAPISpec` of src/index.ts: builds the OpenAPI document
object with the constant version "3.0.3", the info object with JavaScript
or-defaults, and the paths, components and tags taken from the documentation
fragment with empty defaults. -/
def createOpenAPISpec (documentation : OpenAPIDocumentation) : JsValue :=
  JsValue.obj [
    ("openapi", JsValue.str "3.0.3"),
    ("info", JsValue.obj [
      ("title", JsValue.str (jsOrD (documentation.info.bind (fun i => i.title)) "Vafast API")),
      ("description", JsValue.str (jsOrD (documentation.info.bind (fun i => i.description)) "API documentation")),
      ("version", JsValue.str (jsOrD (documentation.info.bind (fun i => i.version)) "1.0.0"))
    ]),
    ("paths", JsValue.obj (documentation.paths.getD [])),
    ("components", JsValue.obj (documentation.components.getD [])),
    ("tags", JsValue.arr ((documentation.tags.getD []).map tagToJson))
  ]

/-- Embeds the mapping of `Object.entries(swaggerOptions)` in
`renderSwaggerUI`: each entry becomes the text `key: JSON.stringify(value)`,
and a thrown serialization error propagates. -/
def swaggerUIOptionEntries : List (String × JsValue) → Except Unit (List String)
  | [] => Except.ok []
  | kv :: rest =>
    match jsStringifyTL kv.2 with
    | Except.error e => Except.error e
    | Except.ok s =>
      match swaggerUIOptionEntries rest with
      | Except.error e => Except.error e
      | Except.ok tail => Except.ok ((kv.1 ++ ": " ++ s) :: tail)

/-- Embeds `renderSwaggerUI` of src/index.ts: the classic-viewer HTML page.
The `theme` parameter is accepted but never interpolated; `description` and
`apiVersion` are computed but never interpolated either, exactly as in the
source. -/
def renderSwaggerUI (info : OpenAPIInfo) (version : String) (theme : ThemeCfg)
    (swaggerOptions : List (String × JsValue)) (autoDarkMode : Bool) : Except Unit String :=
  let title := jsOrD info.title "API Documentation"
  let description := jsOrD info.description "API documentation"
  let apiVersion := jsOrD info.version "1.0.0"
  match swaggerUIOptionEntries swaggerOptions with
  | Except.error e => Except.error e
  | Except.ok entries =>
    Except.ok (
      "<!DOCTYPE html>\n<html lang=\x22en\x22>\n<head>\n    <meta charset=\x22UTF-8\x22>\n    <meta name=\x22viewport\x22 content=\x22width=device-width, initial-scale=1.0\x22>\n    <title>"
      ++ title
      ++ "</title>\n    <link rel=\x22stylesheet\x22 type=\x22text/css\x22 href=\x22"
      ++ ("https://unpkg.com/swagger-ui-dist@" ++ version ++ "/swagger-ui.css")
      ++ "\x22 />\n    <style>\n        html \x7b box-sizing: border-box; overflow: -moz-scrollbars-vertical; overflow-y: scroll; \x7d\n        *, *:before, *:after \x7b box-sizing: inherit; \x7d\n        body \x7b margin:0; background: #fafafa; \x7d\n        "
      ++ (cond autoDarkMode "\n        @media (prefers-color-scheme: dark) \x7b\n            body \x7b background: #1a1a1a; \x7d\n        \x7d\n        " "")
      ++ "\n    </style>\n</head>\n<body>\n    <div id=\x22swagger-ui\x22></div>\n    <script src=\x22https://unpkg.com/swagger-ui-dist@"
      ++ version
      ++ "/"
      ++ "swagger-ui-bundle.js"
      ++ "\x22></script>\n    <script src=\x22https://unpkg.com/swagger-ui-dist@"
      ++ version
      ++ "/swagger-ui-standalone-preset.js\x22></script>\n    <script>\n        window.onload = function() \x7b\n            const ui = SwaggerUIBundle(\x7b\n                url: \x27./json\x27,\n                dom_id: \x27#swagger-ui\x27,\n                deepLinking: true,\n                presets: [SwaggerUIBundle.presets.apis, SwaggerUIStandalone.presets.standalone],\n                plugins: [SwaggerUIBundle.plugins.DownloadUrl],\n                layout: \x22StandaloneLayout\x22,\n                "
      ++ String.intercalate ",\n                " entries
      ++ "\n            \x7d);\n        \x7d;\n    </script>\n</body>\n</html>")

/-- Embeds `renderScalar` of src/index.ts: the reference-viewer HTML page,
with the content element carrying the constant relative data-url "./json" and
the JSON-serialized configuration, and the script source being the CDN
override or, when that is empty, the version-qualified default URL. -/
def renderScalar (info : OpenAPIInfo) (version : String)
    (config : List (String × JsValue)) (cdn : String) : Except Unit String :=
  let title := jsOrD info.title "API Documentation"
  let description := jsOrD info.description "API documentation"
  match jsStringifyTL (JsValue.obj config) with
  | Except.error e => Except.error e
  | Except.ok cfgJson =>
    Except.ok (
      "<!DOCTYPE html>\n<html lang=\x22en\x22>\n<head>\n    <meta charset=\x22UTF-8\x22>\n    <meta name=\x22viewport\x22 content=\x22width=device-width, initial-scale=1.0\x22>\n    <title>"
      ++ title
      ++ "</title>\n    <style>\n        body \x7b margin: 0; font-family: -apple-system, BlinkMacSystemFont, \x27Segoe UI\x27, Roboto, sans-serif; \x7d\n        #api-reference \x7b min-height: 100vh; \x7d\n    </style>\n</head>\n<body>\n    <div "
      ++ "id=\x22api-reference\x22"
      ++ " "
      ++ "data-url=\x22./json\x22"
      ++ " "
      ++ ("data-configuration=\x27" ++ cfgJson ++ "\x27")
      ++ "></div>\n    <script src=\x22"
      ++ strOr cdn ("https://cdn.jsdelivr.net/npm/@scalar/api-reference@" ++ version ++ "/dist/browser/standalone.min.js")
      ++ "\x22 crossorigin></script>\n</body>\n</html>")

/-- Embeds the defaulted destructuring pattern at the head of `swagger` in
src/index.ts: each absent configuration field takes its declared default; the
default spec path appends "/json" to the (already defaulted) UI path, and the
default theme is the version-qualified stylesheet URL. -/
structure ResolvedConfig where
  provider : Provider
  scalarVersion : String
  scalarCDN : String
  scalarConfig : List (String × JsValue)
  documentation : OpenAPIDocumentation
  version : String
  excludeStaticFile : Bool
  path : String
  specPath : String
  exclude : List String
  swaggerOptions : List (String × JsValue)
  theme : ThemeCfg
  autoDarkMode : Bool
  excludeMethods : List String
  excludeTags : List String

/-- Embeds the default values of the destructuring pattern of `swagger`. -/
def resolveConfig (c : VafastSwaggerConfig) : ResolvedConfig :=
  let version := c.version.getD "4.18.2"
  let path := c.path.getD "/swagger"
  { provider := c.provider.getD Provider.scalar
    scalarVersion := c.scalarVersion.getD "latest"
    scalarCDN := c.scalarCDN.getD ""
    scalarConfig := c.scalarConfig.getD []
    documentation := c.documentation.getD {}
    version := version
    excludeStaticFile := c.excludeStaticFile.getD true
    path := path
    specPath := c.specPath.getD (path ++ "/json")
    exclude := c.exclude.getD []
    swaggerOptions := c.swaggerOptions.getD []
    theme := c.theme.getD (ThemeCfg.str ("https://unpkg.com/swagger-ui-dist@" ++ version ++ "/swagger-ui.css"))
    autoDarkMode := c.autoDarkMode.getD true
    excludeMethods := c.excludeMethods.getD ["OPTIONS"]
    excludeTags := c.excludeTags.getD [] }

/-- Embeds the provider dispatch inside the UI-path branch of the middleware:
`provider === "swagger-ui" ? renderSwaggerUI(...) : renderScalar(...)`, with
the arguments the source passes (in particular `documentation.info || ` the
empty object). -/
def uiRender (cfg : VafastSwaggerConfig) : Except Unit String :=
  let r := resolveConfig cfg
  if r.provider = Provider.swaggerUi then
    renderSwaggerUI (r.documentation.info.getD {}) r.version r.theme r.swaggerOptions r.autoDarkMode
  else
    renderScalar (r.documentation.info.getD {}) r.scalarVersion r.scalarConfig r.scalarCDN

/-- Embeds the middleware returned by `swagger` in src/index.ts: on the UI
path it responds with the rendered HTML page (a rendering error — a thrown
`JSON.stringify` `TypeError` — propagates), on the spec path with the JSON
OpenAPI document, and otherwise it returns the response of `next()`
unchanged.  The awaited response of the `next` continuation is passed as a
value. -/
def swagger (cfg : VafastSwaggerConfig) (req : Request) (next : Response) : Except Unit Response :=
  let r := resolveConfig cfg
  if req.pathname = r.path then
    match uiRender cfg with
    | Except.error e => Except.error e
    | Except.ok htmlContent => Except.ok (htmlResponse htmlContent)
  else if req.pathname = r.specPath then
    Except.ok (json (createOpenAPISpec r.documentation))
  else
    Except.ok next

/-- Status of a middleware result, when it returned a response at all. -/
def respStatus : Except Unit Response → Option Nat
  | Except.ok r => some r.status
  | Except.error _ => none

/-- Content-type of a middleware result, when it returned a response. -/
def respContentType : Except Unit Response → Option String
  | Except.ok r => some r.contentType
  | Except.error _ => none

/-- The HTML body of a middleware result, when it returned an HTML page. -/
def respHtml : Except Unit Response → Option String
  | Except.ok r =>
    match r.body with
    | Body.htmlBody s => some s
    | _ => none
  | Except.error _ => none

/-- The structured JSON body of a middleware result, when it returned one. -/
def respJson : Except Unit Response → Option JsValue
  | Except.ok r =>
    match r.body with
    | Body.jsonBody v => some v
    | _ => none
  | Except.error _ => none

/-- Member lookup on a JSON object value. -/
def jsObjLookup (k : String) : JsValue → Option JsValue
  | JsValue.obj kvs => kvs.lookup k
  | _ => none

/-- The keys of a JSON object value, in order. -/
def jsObjKeys : JsValue → Option (List String)
  | JsValue.obj kvs => some (kvs.map Prod.fst)
  | _ => none

/-- The length of a JSON array value. -/
def jsArrLength : JsValue → Option Nat
  | JsValue.arr xs => some xs.length
  | _ => none

/-- The string content of a JSON string value, used to state facts about
members of the generated document over decidable types. -/
def jsAsStr : Option JsValue → Option String
  | some (JsValue.str s) => some s
  | _ => none

/-- A field of the JSON body of a middleware result. -/
def respJsonField (k : String) (r : Except Unit Response) : Option JsValue :=
  (respJson r).bind (jsObjLookup k)

/-- Substring containment, via infixes of the underlying character lists. -/
def ContainsSubstr (pat s : String) : Prop :=
  pat.data <:+: s.data

instance (pat s : String) : Decidable (ContainsSubstr pat s) :=
  inferInstanceAs (Decidable (pat.data <:+: s.data))

/-- Boolean version of substring containment, for stating counterexamples on
concrete pages without binders. -/
def containsSubstrB (pat s : String) : Bool :=
  decide (ContainsSubstr pat s)

/-- A sample downstream response used by concrete instantiations. -/
def nextSample : Response :=
  { status := 404, contentType := "text/plain", body := Body.rawBody "not found" }

/-- A sample request builder used by concrete instantiations. -/
def getReq (p : String) : Request :=
  { method := "GET", pathname := p }

/-- A member of the info object of the generated document. -/
def specInfoField (k : String) (v : JsValue) : Option JsValue :=
  (jsObjLookup "info" v).bind (jsObjLookup k)

/-- A documentation fragment supplying an empty-string title. -/
def emptyTitleDoc : OpenAPIDocumentation :=
  { info := some { title := some "" } }

/-- The documentation fragment of the C3 merge scenario. -/
def mergeDoc : OpenAPIDocumentation :=
  { info := some { title := some "Custom API", version := some "2.0.0" },
    tags := some [{ name := "Users" }] }

/-- A configuration whose spec path coincides with its UI path. -/
def overlapConfig : VafastSwaggerConfig :=
  { path := some "/swagger", specPath := some "/swagger" }

/-- The custom-path configuration of the C7 scenario. -/
def customPathConfig : VafastSwaggerConfig :=
  { path := some "/api-docs", specPath := some "/api-docs/spec" }

/-- A configuration whose scalar renderer options contain a reference cycle. -/
def cyclicConfig : VafastSwaggerConfig :=
  { scalarConfig := some [("self", JsValue.cyclic)] }

/-- A configuration selecting the classic-viewer provider. -/
def swaggerUiConfig : VafastSwaggerConfig :=
  { provider := some Provider.swaggerUi }

/-- The page the classic-viewer configuration renders. -/
def swaggerUiPage : String :=
  (uiRender swaggerUiConfig).toOption.getD ""

/-- The page the default (scalar) configuration renders. -/
def scalarDefaultPage : String :=
  (uiRender {}).toOption.getD ""

/-- A configuration whose scalar renderer options contain a function value. -/
def funcOptionConfig : VafastSwaggerConfig :=
  { scalarConfig := some [("callback", JsValue.func)] }

/-- A classic-viewer configuration whose extra viewer options contain a
reference cycle. -/
def cyclicSwaggerUiConfig : VafastSwaggerConfig :=
  { provider := some Provider.swaggerUi,
    swaggerOptions := some [("self", JsValue.cyclic)] }

/-- A string contains itself. -/
theorem containsSubstr_refl (s : String) : ContainsSubstr s s :=
  ⟨[], [], by simp⟩

/-- Containment is preserved by appending on the right. -/
theorem containsSubstr_append_right (pat s t : String) (h : ContainsSubstr pat s) :
    ContainsSubstr pat (s ++ t) := by
  obtain ⟨a, b, hab⟩ := h
  exact ⟨a, b ++ t.data, by rw [String.data_append, ← hab]; simp⟩

/-- Containment is preserved by appending on the left. -/
theorem containsSubstr_append_left (pat s t : String) (h : ContainsSubstr pat t) :
    ContainsSubstr pat (s ++ t) := by
  obtain ⟨a, b, hab⟩ := h
  exact ⟨s.data ++ a, b, by rw [String.data_append, ← hab]; simp⟩

/-- C1: for every configuration and every request whose URL pathname equals
neither the configured UI path nor the configured spec path, the middleware
returns exactly the response produced by invoking next, unchanged in status,
headers, and body. -/
theorem c1_pass_through (cfg : VafastSwaggerConfig) (req : Request) (next : Response)
    (h1 : req.pathname ≠ (resolveConfig cfg).path)
    (h2 : req.pathname ≠ (resolveConfig cfg).specPath) :
    swagger cfg req next = Except.ok next := by
  unfold swagger
  simp [h1, h2]

/-- Witness for C1: the default configuration passes a request for an
unrelated path through to the downstream response. -/
theorem c1_pass_through_witness :
    ("/health" ≠ (resolveConfig {}).path) ∧ ("/health" ≠ (resolveConfig {}).specPath) ∧
    swagger {} (getReq "/health") nextSample = Except.ok nextSample :=
  ⟨by decide, by decide, c1_pass_through {} (getReq "/health") nextSample (by decide) (by decide)⟩

/-- C2 counterexample: with a configuration whose spec path equals its UI
path, a request whose pathname equals the configured spec path is answered by
the UI branch (checked first) with text/html, not with application/json as
the claim requires for every configuration. -/
theorem c2_counterexample :
    ("/swagger" = (resolveConfig overlapConfig).specPath) ∧
    respContentType (swagger overlapConfig (getReq "/swagger") nextSample) = some "text/html" ∧
    respContentType (swagger overlapConfig (getReq "/swagger") nextSample) ≠ some "application/json" := by
  refine ⟨rfl, rfl, ?_⟩
  decide

/-- C2 (amended): for every configuration and every request, of any HTTP
method, whose URL pathname equals the configured spec path and differs from
the configured UI path, the middleware returns status 200 with content-type
application/json and a body whose openapi member is the string 3.0.3. -/
theorem c2_spec_response (cfg : VafastSwaggerConfig) (req : Request) (next : Response)
    (hspec : req.pathname = (resolveConfig cfg).specPath)
    (hui : req.pathname ≠ (resolveConfig cfg).path) :
    swagger cfg req next = Except.ok (json (createOpenAPISpec (resolveConfig cfg).documentation)) ∧
    respStatus (swagger cfg req next) = some 200 ∧
    respContentType (swagger cfg req next) = some "application/json" ∧
    jsAsStr (respJsonField "openapi" (swagger cfg req next)) = some "3.0.3" := by
  have hne : (resolveConfig cfg).specPath ≠ (resolveConfig cfg).path := fun heq => hui (hspec.trans heq)
  have hmw : swagger cfg req next = Except.ok (json (createOpenAPISpec (resolveConfig cfg).documentation)) := by
    unfold swagger
    simp [hui, hspec, hne]
  refine ⟨hmw, ?_, ?_, ?_⟩ <;> rw [hmw] <;> rfl

/-- Witness for C2 (amended): a POST request to the default spec path. -/
theorem c2_spec_response_witness :
    ("/swagger/json" = (resolveConfig {}).specPath) ∧ ("/swagger/json" ≠ (resolveConfig {}).path) ∧
    (respStatus (swagger {} { method := "POST", pathname := "/swagger/json" } nextSample) = some 200 ∧
     respContentType (swagger {} { method := "POST", pathname := "/swagger/json" } nextSample) = some "application/json" ∧
     jsAsStr (respJsonField "openapi" (swagger {} { method := "POST", pathname := "/swagger/json" } nextSample)) = some "3.0.3") :=
  ⟨by decide, by decide,
    (c2_spec_response {} { method := "POST", pathname := "/swagger/json" } nextSample (by decide) (by decide)).2⟩

/-- C6: the emitted OpenAPI document is independent of the excludeMethods and
excludeTags configuration fields, and its paths and tags members are taken
verbatim from the caller-supplied documentation fragment, with nothing
filtered out. -/
theorem c6_exclude_independent (cfg : VafastSwaggerConfig)
    (em et : Option (List String)) (req : Request) (next : Response) (d : OpenAPIDocumentation) :
    swagger { cfg with excludeMethods := em, excludeTags := et } req next = swagger cfg req next ∧
    jsObjLookup "paths" (createOpenAPISpec d) = some (JsValue.obj (d.paths.getD [])) ∧
    jsObjLookup "tags" (createOpenAPISpec d) = some (JsValue.arr ((d.tags.getD []).map tagToJson)) :=
  ⟨rfl, rfl, rfl⟩

/-- C7: with no configuration the UI path defaults to /swagger and the spec
path to /swagger/json; the default spec path is the defaulted UI path with
/json appended; and under the custom-path configuration, requests to
/api-docs and /api-docs/spec return 200 while requests to /swagger and
/swagger/json are delegated to next. -/
theorem c7_path_defaults (cfg : VafastSwaggerConfig) (hs : cfg.specPath = none) :
    (resolveConfig {}).path = "/swagger" ∧
    (resolveConfig {}).specPath = "/swagger/json" ∧
    (resolveConfig cfg).specPath = (resolveConfig cfg).path ++ "/json" ∧
    respStatus (swagger customPathConfig (getReq "/api-docs") nextSample) = some 200 ∧
    respStatus (swagger customPathConfig (getReq "/api-docs/spec") nextSample) = some 200 ∧
    swagger customPathConfig (getReq "/swagger") nextSample = Except.ok nextSample ∧
    swagger customPathConfig (getReq "/swagger/json") nextSample = Except.ok nextSample := by
  refine ⟨rfl, rfl, ?_, rfl, rfl, rfl, rfl⟩
  simp [resolveConfig, hs]

/-- Witness for C7 at the empty configuration. -/
theorem c7_path_defaults_witness :
    (({} : VafastSwaggerConfig).specPath = none) ∧
    ((resolveConfig {}).specPath = (resolveConfig {}).path ++ "/json" ∧
     respStatus (swagger customPathConfig (getReq "/api-docs") nextSample) = some 200) :=
  ⟨rfl, (c7_path_defaults {} rfl).2.2.1, (c7_path_defaults {} rfl).2.2.2.1⟩

/-- C8: the spec-path response is a pure function of the configured
documentation fragment: the same request yields the same document however
often it is issued and whatever the downstream handler does, and two
configurations with the same documentation fragment yield structurally equal
documents. -/
theorem c8_spec_pure (cfg cfg2 : VafastSwaggerConfig) (req : Request) (n1 n2 : Response)
    (hspec : req.pathname = (resolveConfig cfg).specPath)
    (hui : req.pathname ≠ (resolveConfig cfg).path) :
    swagger cfg req n1 = swagger cfg req n2 ∧
    swagger cfg req n1 = Except.ok (json (createOpenAPISpec (resolveConfig cfg).documentation)) ∧
    (cfg2.documentation = cfg.documentation →
      createOpenAPISpec (resolveConfig cfg2).documentation = createOpenAPISpec (resolveConfig cfg).documentation) := by
  have hne : (resolveConfig cfg).specPath ≠ (resolveConfig cfg).path := fun heq => hui (hspec.trans heq)
  have hmw : ∀ n : Response, swagger cfg req n = Except.ok (json (createOpenAPISpec (resolveConfig cfg).documentation)) := by
    intro n
    unfold swagger
    simp [hui, hspec, hne]
  refine ⟨(hmw n1).trans (hmw n2).symm, hmw n1, ?_⟩
  intro hd
  simp [resolveConfig, hd]

/-- Witness for C8 at the default configuration and two distinct downstream
responses. -/
theorem c8_spec_pure_witness :
    ("/swagger/json" = (resolveConfig {}).specPath) ∧ ("/swagger/json" ≠ (resolveConfig {}).path) ∧
    swagger {} (getReq "/swagger/json") nextSample
      = swagger {} (getReq "/swagger/json") { status := 200, contentType := "text/plain", body := Body.rawBody "ok" } :=
  ⟨by decide, by decide,
    (c8_spec_pure {} {} (getReq "/swagger/json") nextSample
      { status := 200, contentType := "text/plain", body := Body.rawBody "ok" } (by decide) (by decide)).1⟩

/-- C3 counterexample: a supplied info title is not always taken verbatim —
the empty string is falsy in JavaScript, so an empty supplied title falls
back to the fixed product name instead of appearing verbatim. -/
theorem c3_counterexample :
    (emptyTitleDoc.info.bind (fun i => i.title) = some "") ∧
    jsAsStr (specInfoField "title" (createOpenAPISpec emptyTitleDoc)) = some "Vafast API" ∧
    jsAsStr (specInfoField "title" (createOpenAPISpec emptyTitleDoc)) ≠ some "" := by
  refine ⟨rfl, rfl, ?_⟩
  decide

/-- C3 (amended): the built document has exactly the keys openapi, info,
paths, components and tags; an info field that is absent — whether the whole
info object or just the field is missing — takes its documented default, as
do absent paths, components and tags; a supplied empty-string info field
falls back to its default, by JavaScript or-semantics; supplied non-empty
info strings and supplied tags, paths and components are taken verbatim; and
the merge scenario yields title Custom API, version 2.0.0 and one tag. -/
theorem c3_spec_shape (d : OpenAPIDocumentation) (t de ve : String) (ts : List OpenAPITag)
    (ps cs : List (String × JsValue)) :
    jsObjKeys (createOpenAPISpec d) = some ["openapi", "info", "paths", "components", "tags"] ∧
    (d.info.bind (fun i => i.title) = none →
      jsAsStr (specInfoField "title" (createOpenAPISpec d)) = some "Vafast API") ∧
    (d.info.bind (fun i => i.description) = none →
      jsAsStr (specInfoField "description" (createOpenAPISpec d)) = some "API documentation") ∧
    (d.info.bind (fun i => i.version) = none →
      jsAsStr (specInfoField "version" (createOpenAPISpec d)) = some "1.0.0") ∧
    (d.paths = none → jsObjLookup "paths" (createOpenAPISpec d) = some (JsValue.obj [])) ∧
    (d.components = none → jsObjLookup "components" (createOpenAPISpec d) = some (JsValue.obj [])) ∧
    (d.tags = none → jsObjLookup "tags" (createOpenAPISpec d) = some (JsValue.arr [])) ∧
    (d.info.bind (fun i => i.title) = some "" →
      jsAsStr (specInfoField "title" (createOpenAPISpec d)) = some "Vafast API") ∧
    (d.info.bind (fun i => i.description) = some "" →
      jsAsStr (specInfoField "description" (createOpenAPISpec d)) = some "API documentation") ∧
    (d.info.bind (fun i => i.version) = some "" →
      jsAsStr (specInfoField "version" (createOpenAPISpec d)) = some "1.0.0") ∧
    (d.info.bind (fun i => i.title) = some t → t ≠ "" →
      jsAsStr (specInfoField "title" (createOpenAPISpec d)) = some t) ∧
    (d.info.bind (fun i => i.description) = some de → de ≠ "" →
      jsAsStr (specInfoField "description" (createOpenAPISpec d)) = some de) ∧
    (d.info.bind (fun i => i.version) = some ve → ve ≠ "" →
      jsAsStr (specInfoField "version" (createOpenAPISpec d)) = some ve) ∧
    (d.tags = some ts → jsObjLookup "tags" (createOpenAPISpec d) = some (JsValue.arr (ts.map tagToJson))) ∧
    (d.paths = some ps → jsObjLookup "paths" (createOpenAPISpec d) = some (JsValue.obj ps)) ∧
    (d.components = some cs → jsObjLookup "components" (createOpenAPISpec d) = some (JsValue.obj cs)) ∧
    (jsAsStr (specInfoField "title" (createOpenAPISpec mergeDoc)) = some "Custom API" ∧
     jsAsStr (specInfoField "version" (createOpenAPISpec mergeDoc)) = some "2.0.0" ∧
     (jsObjLookup "tags" (createOpenAPISpec mergeDoc)).bind jsArrLength = some 1) := by
  refine ⟨rfl, ?_, ?_, ?_, ?_, ?_, ?_, ?_, ?_, ?_, ?_, ?_, ?_, ?_, ?_, ?_, rfl, rfl, rfl⟩
  · intro h
    simp [createOpenAPISpec, specInfoField, jsObjLookup, jsAsStr, jsOrD, h, List.lookup]
  · intro h
    simp [createOpenAPISpec, specInfoField, jsObjLookup, jsAsStr, jsOrD, h, List.lookup]
  · intro h
    simp [createOpenAPISpec, specInfoField, jsObjLookup, jsAsStr, jsOrD, h, List.lookup]
  · intro h
    simp [createOpenAPISpec, jsObjLookup, h, List.lookup]
  · intro h
    simp [createOpenAPISpec, jsObjLookup, h, List.lookup]
  · intro h
    simp [createOpenAPISpec, jsObjLookup, h, List.lookup]
  · intro h
    simp [createOpenAPISpec, specInfoField, jsObjLookup, jsAsStr, jsOrD, h, List.lookup]
  · intro h
    simp [createOpenAPISpec, specInfoField, jsObjLookup, jsAsStr, jsOrD, h, List.lookup]
  · intro h
    simp [createOpenAPISpec, specInfoField, jsObjLookup, jsAsStr, jsOrD, h, List.lookup]
  · intro h ht
    simp [createOpenAPISpec, specInfoField, jsObjLookup, jsAsStr, jsOrD, h, ht, List.lookup]
  · intro h hd
    simp [createOpenAPISpec, specInfoField, jsObjLookup, jsAsStr, jsOrD, h, hd, List.lookup]
  · intro h hv
    simp [createOpenAPISpec, specInfoField, jsObjLookup, jsAsStr, jsOrD, h, hv, List.lookup]
  · intro h
    simp [createOpenAPISpec, jsObjLookup, h, List.lookup]
  · intro h
    simp [createOpenAPISpec, jsObjLookup, h, List.lookup]
  · intro h
    simp [createOpenAPISpec, jsObjLookup, h, List.lookup]

/-- Witness for C3 (amended): a present info object with an absent
description falls back to the default, an empty supplied title falls back to
the product name, and a non-empty supplied title is taken verbatim. -/
theorem c3_spec_shape_witness :
    (mergeDoc.info.bind (fun i => i.description) = none) ∧
    (emptyTitleDoc.info.bind (fun i => i.title) = some "") ∧
    (mergeDoc.info.bind (fun i => i.title) = some "Custom API") ∧
    ("Custom API" ≠ "") ∧
    (jsAsStr (specInfoField "description" (createOpenAPISpec mergeDoc)) = some "API documentation" ∧
     jsAsStr (specInfoField "title" (createOpenAPISpec emptyTitleDoc)) = some "Vafast API" ∧
     jsAsStr (specInfoField "title" (createOpenAPISpec mergeDoc)) = some "Custom API") :=
  ⟨rfl, rfl, rfl, by decide,
    (c3_spec_shape mergeDoc "Custom API" "x" "x" [] [] []).2.2.1 rfl,
    (c3_spec_shape emptyTitleDoc "x" "x" "x" [] [] []).2.2.2.2.2.2.2.1 rfl,
    (c3_spec_shape mergeDoc "Custom API" "x" "x" [] [] []).2.2.2.2.2.2.2.2.2.2.1 rfl (by decide)⟩

/-- Dissection of a successful classic-viewer render: the page contains the
bundle-script marker and the version-qualified stylesheet URL. -/
theorem renderSwaggerUI_markers (i : OpenAPIInfo) (v : String) (th : ThemeCfg)
    (opts : List (String × JsValue)) (dark : Bool) (s : String)
    (h : renderSwaggerUI i v th opts dark = Except.ok s) :
    ContainsSubstr "swagger-ui-bundle.js" s ∧
    ContainsSubstr ("https://unpkg.com/swagger-ui-dist@" ++ v ++ "/swagger-ui.css") s := by
  unfold renderSwaggerUI at h
  revert h
  cases he : swaggerUIOptionEntries opts with
  | error e =>
    intro h
    exact Except.noConfusion h
  | ok entries =>
    intro h
    injection h with hs
    rw [← hs]
    constructor
    · apply containsSubstr_append_right
      apply containsSubstr_append_right
      apply containsSubstr_append_right
      apply containsSubstr_append_right
      apply containsSubstr_append_right
      apply containsSubstr_append_left
      exact containsSubstr_refl _
    · apply containsSubstr_append_right
      apply containsSubstr_append_right
      apply containsSubstr_append_right
      apply containsSubstr_append_right
      apply containsSubstr_append_right
      apply containsSubstr_append_right
      apply containsSubstr_append_right
      apply containsSubstr_append_right
      apply containsSubstr_append_right
      apply containsSubstr_append_right
      apply containsSubstr_append_right
      apply containsSubstr_append_left
      exact containsSubstr_refl _

/-- Dissection of a successful reference-viewer render: the page contains the
content-element id marker and the constant relative data-url attribute. -/
theorem renderScalar_markers (i : OpenAPIInfo) (v : String)
    (config : List (String × JsValue)) (cdn : String) (s : String)
    (h : renderScalar i v config cdn = Except.ok s) :
    ContainsSubstr "id=\x22api-reference\x22" s ∧
    ContainsSubstr "data-url=\x22./json\x22" s := by
  unfold renderScalar at h
  revert h
  cases he : jsStringifyTL (JsValue.obj config) with
  | error e =>
    intro h
    exact Except.noConfusion h
  | ok cfgJson =>
    intro h
    injection h with hs
    rw [← hs]
    constructor
    · apply containsSubstr_append_right
      apply containsSubstr_append_right
      apply containsSubstr_append_right
      apply containsSubstr_append_right
      apply containsSubstr_append_right
      apply containsSubstr_append_right
      apply containsSubstr_append_right
      apply containsSubstr_append_left
      exact containsSubstr_refl _
    · apply containsSubstr_append_right
      apply containsSubstr_append_right
      apply containsSubstr_append_right
      apply containsSubstr_append_right
      apply containsSubstr_append_right
      apply containsSubstr_append_left
      exact containsSubstr_refl _

/-- Dissection of a successful reference-viewer render: the page carries the
data-configuration attribute holding the serialized renderer options. -/
theorem renderScalar_config_attr (i : OpenAPIInfo) (v : String)
    (config : List (String × JsValue)) (cdn cs s : String)
    (hser : jsStringifyTL (JsValue.obj config) = Except.ok cs)
    (h : renderScalar i v config cdn = Except.ok s) :
    ContainsSubstr ("data-configuration=\x27" ++ cs ++ "\x27") s := by
  unfold renderScalar at h
  rw [hser] at h
  simp only [Except.ok.injEq] at h
  rw [← h]
  apply containsSubstr_append_right
  apply containsSubstr_append_right
  apply containsSubstr_append_right
  apply containsSubstr_append_left
  exact containsSubstr_refl _

/-- C4 counterexample: for a configuration whose renderer options contain a
reference cycle, a request to the UI path does not return a status-200 HTML
page — serialization throws and the error propagates out of the middleware. -/
theorem c4_counterexample :
    ("/swagger" = (resolveConfig cyclicConfig).path) ∧
    swagger cyclicConfig (getReq "/swagger") nextSample = Except.error () ∧
    respStatus (swagger cyclicConfig (getReq "/swagger") nextSample) ≠ some 200 := by
  refine ⟨rfl, rfl, ?_⟩
  decide

/-- C4 (amended): for every configuration whose UI page renders successfully
(its renderer options are serializable) and every request whose URL pathname
equals the configured UI path, the middleware returns status 200 with
content-type text/html, and the body contains the classic-viewer bundle
marker when the provider is swagger-ui and the reference-viewer
content-element id when the provider is scalar. -/
theorem c4_ui_response (cfg : VafastSwaggerConfig) (req : Request) (next : Response) (s : String)
    (hui : req.pathname = (resolveConfig cfg).path)
    (hrender : uiRender cfg = Except.ok s) :
    swagger cfg req next = Except.ok (htmlResponse s) ∧
    respStatus (swagger cfg req next) = some 200 ∧
    respContentType (swagger cfg req next) = some "text/html" ∧
    ((resolveConfig cfg).provider = Provider.swaggerUi → ContainsSubstr "swagger-ui-bundle.js" s) ∧
    ((resolveConfig cfg).provider = Provider.scalar → ContainsSubstr "id=\x22api-reference\x22" s) := by
  have hmw : swagger cfg req next = Except.ok (htmlResponse s) := by
    unfold swagger
    simp [hui, hrender]
  refine ⟨hmw, by rw [hmw]; rfl, by rw [hmw]; rfl, ?_, ?_⟩
  · intro hp
    have hu := hrender
    simp only [uiRender] at hu
    rw [hp] at hu
    rw [if_pos rfl] at hu
    exact (renderSwaggerUI_markers _ _ _ _ _ _ hu).1
  · intro hp
    have hu := hrender
    simp only [uiRender] at hu
    rw [hp] at hu
    rw [if_neg (by intro hq; exact Provider.noConfusion hq)] at hu
    exact (renderScalar_markers _ _ _ _ _ hu).1

/-- Witness for C4 (amended) at the classic-viewer configuration. -/
theorem c4_ui_response_witness :
    ("/swagger" = (resolveConfig swaggerUiConfig).path) ∧
    (uiRender swaggerUiConfig = Except.ok swaggerUiPage) ∧
    (respStatus (swagger swaggerUiConfig (getReq "/swagger") nextSample) = some 200 ∧
     respContentType (swagger swaggerUiConfig (getReq "/swagger") nextSample) = some "text/html" ∧
     ContainsSubstr "swagger-ui-bundle.js" swaggerUiPage) :=
  ⟨rfl, rfl,
    (c4_ui_response swaggerUiConfig (getReq "/swagger") nextSample swaggerUiPage rfl rfl).2.1,
    (c4_ui_response swaggerUiConfig (getReq "/swagger") nextSample swaggerUiPage rfl rfl).2.2.1,
    (c4_ui_response swaggerUiConfig (getReq "/swagger") nextSample swaggerUiPage rfl rfl).2.2.2.1 rfl⟩

/-- C5 counterexample: the data-url attribute does not point at the
configured spec-path URL — the spec path /api-docs/spec never occurs in the
rendered page, which instead carries the constant relative data-url ./json,
and the rendered page does not depend on the configured spec path at all. -/
theorem c5_counterexample :
    ((resolveConfig customPathConfig).specPath = "/api-docs/spec") ∧
    (respHtml (swagger customPathConfig (getReq "/api-docs") nextSample)).map
      (containsSubstrB "/api-docs/spec") = some false ∧
    (respHtml (swagger customPathConfig (getReq "/api-docs") nextSample)).map
      (containsSubstrB "data-url=\x22./json\x22") = some true ∧
    swagger customPathConfig (getReq "/api-docs") nextSample
      = swagger { path := some "/api-docs", specPath := some "/other/spec" } (getReq "/api-docs") nextSample := by
  refine ⟨rfl, ?_, ?_, rfl⟩
  · decide
  · decide

/-- C5 (amended): for every configuration with the scalar provider whose
renderer options serialize to a string, the rendered page's content element
carries a data-url attribute holding the constant relative URL ./json (not
the configured spec-path URL) and a data-configuration attribute carrying the
JSON-serialized renderer options. -/
theorem c5_scalar_attrs (cfg : VafastSwaggerConfig) (s cs : String)
    (hprov : (resolveConfig cfg).provider = Provider.scalar)
    (hser : jsStringifyTL (JsValue.obj (resolveConfig cfg).scalarConfig) = Except.ok cs)
    (hrender : uiRender cfg = Except.ok s) :
    ContainsSubstr "data-url=\x22./json\x22" s ∧
    ContainsSubstr ("data-configuration=\x27" ++ cs ++ "\x27") s := by
  have hu := hrender
  simp only [uiRender] at hu
  rw [hprov] at hu
  rw [if_neg (by intro hq; exact Provider.noConfusion hq)] at hu
  exact ⟨(renderScalar_markers _ _ _ _ _ hu).2, renderScalar_config_attr _ _ _ _ _ _ hser hu⟩

/-- Witness for C5 (amended) at the default configuration, whose empty
options record serializes to an empty JSON object. -/
theorem c5_scalar_attrs_witness :
    ((resolveConfig {}).provider = Provider.scalar) ∧
    (jsStringifyTL (JsValue.obj (resolveConfig {}).scalarConfig) = Except.ok "\x7b\x7d") ∧
    (uiRender {} = Except.ok scalarDefaultPage) ∧
    (ContainsSubstr "data-url=\x22./json\x22" scalarDefaultPage ∧
     ContainsSubstr ("data-configuration=\x27" ++ "\x7b\x7d" ++ "\x27") scalarDefaultPage) :=
  ⟨rfl, rfl, rfl, c5_scalar_attrs {} scalarDefaultPage "\x7b\x7d" rfl rfl rfl⟩

/-- C9 counterexample: a function value in the renderer options is
non-serializable, yet the UI request does not fail — it returns a status-200
page identical to the one rendered without that option: the option datum is
silently dropped by serialization, contradicting the claim for every
non-serializable value. -/
theorem c9_counterexample :
    swagger funcOptionConfig (getReq "/swagger") nextSample = swagger {} (getReq "/swagger") nextSample ∧
    respStatus (swagger funcOptionConfig (getReq "/swagger") nextSample) = some 200 ∧
    (respHtml (swagger funcOptionConfig (getReq "/swagger") nextSample)).map
      (containsSubstrB "callback") = some false := by
  refine ⟨rfl, rfl, ?_⟩
  decide

/-- C9 (amended): a reference cycle in the renderer options — in scalarConfig
under the scalar provider, or in swaggerOptions under the swagger-ui provider
— makes serialization throw at render time, and the error propagates out of
the middleware instead of a page being returned; a non-serializable function
value, by contrast, is silently dropped (see the counterexample). -/
theorem c9_cyclic_error (cfg : VafastSwaggerConfig) (req : Request) (next : Response)
    (hui : req.pathname = (resolveConfig cfg).path) :
    ((resolveConfig cfg).provider = Provider.scalar →
      jsStringifyTL (JsValue.obj (resolveConfig cfg).scalarConfig) = Except.error () →
      swagger cfg req next = Except.error ()) ∧
    ((resolveConfig cfg).provider = Provider.swaggerUi →
      swaggerUIOptionEntries (resolveConfig cfg).swaggerOptions = Except.error () →
      swagger cfg req next = Except.error ()) := by
  constructor
  · intro hprov hser
    have hr : uiRender cfg = Except.error () := by
      simp only [uiRender]
      rw [hprov]
      rw [if_neg (by intro hq; exact Provider.noConfusion hq)]
      unfold renderScalar
      rw [hser]
    unfold swagger
    simp [hui, hr]
  · intro hprov hser
    have hr : uiRender cfg = Except.error () := by
      simp only [uiRender]
      rw [hprov]
      rw [if_pos rfl]
      unfold renderSwaggerUI
      rw [hser]
    unfold swagger
    simp [hui, hr]

/-- Witness for C9 (amended): the cyclic configurations of both providers at
the default UI path. -/
theorem c9_cyclic_error_witness :
    ("/swagger" = (resolveConfig cyclicConfig).path) ∧
    ("/swagger" = (resolveConfig cyclicSwaggerUiConfig).path) ∧
    ((resolveConfig cyclicConfig).provider = Provider.scalar) ∧
    (jsStringifyTL (JsValue.obj (resolveConfig cyclicConfig).scalarConfig) = Except.error ()) ∧
    ((resolveConfig cyclicSwaggerUiConfig).provider = Provider.swaggerUi) ∧
    (swaggerUIOptionEntries (resolveConfig cyclicSwaggerUiConfig).swaggerOptions = Except.error ()) ∧
    swagger cyclicConfig (getReq "/swagger") nextSample = Except.error () ∧
    swagger cyclicSwaggerUiConfig (getReq "/swagger") nextSample = Except.error () :=
  ⟨rfl, rfl, rfl, rfl, rfl, rfl,
    (c9_cyclic_error cyclicConfig (getReq "/swagger") nextSample rfl).1 rfl rfl,
    (c9_cyclic_error cyclicSwaggerUiConfig (getReq "/swagger") nextSample rfl).2 rfl rfl⟩

/-- C10: the theme option has no effect on the middleware's output — two
configurations differing only in theme produce identical responses for every
request — and the classic-viewer renderer ignores its theme argument
entirely, its page containing the stylesheet URL determined solely by the
version argument. -/
theorem c10_theme_no_effect (cfg : VafastSwaggerConfig) (t1 t2 : Option ThemeCfg)
    (req : Request) (next : Response)
    (i : OpenAPIInfo) (v : String) (th1 th2 : ThemeCfg)
    (opts : List (String × JsValue)) (dark : Bool) (s : String)
    (hrender : renderSwaggerUI i v th1 opts dark = Except.ok s) :
    swagger { cfg with theme := t1 } req next = swagger { cfg with theme := t2 } req next ∧
    renderSwaggerUI i v th1 opts dark = renderSwaggerUI i v th2 opts dark ∧
    ContainsSubstr ("https://unpkg.com/swagger-ui-dist@" ++ v ++ "/swagger-ui.css") s :=
  ⟨rfl, rfl, (renderSwaggerUI_markers i v th1 opts dark s hrender).2⟩

/-- Witness for C10: two configurations differing only in the theme of the
classic viewer render the same page, which links the version-determined
stylesheet. -/
theorem c10_theme_no_effect_witness :
    (renderSwaggerUI {} "4.18.2" (ThemeCfg.str "dark") [] true = Except.ok swaggerUiPage) ∧
    (swagger { swaggerUiConfig with theme := some (ThemeCfg.str "dark") } (getReq "/swagger") nextSample
      = swagger { swaggerUiConfig with theme := some (ThemeCfg.lightDark "a" "b") } (getReq "/swagger") nextSample ∧
     ContainsSubstr ("https://unpkg.com/swagger-ui-dist@" ++ "4.18.2" ++ "/swagger-ui.css") swaggerUiPage) :=
  ⟨rfl,
    (c10_theme_no_effect swaggerUiConfig (some (ThemeCfg.str "dark")) (some (ThemeCfg.lightDark "a" "b"))
      (getReq "/swagger") nextSample {} "4.18.2" (ThemeCfg.str "dark") (ThemeCfg.str "light") [] true
      swaggerUiPage rfl).1,
    (c10_theme_no_effect swaggerUiConfig (some (ThemeCfg.str "dark")) (some (ThemeCfg.lightDark "a" "b"))
      (getReq "/swagger") nextSample {} "4.18.2" (ThemeCfg.str "dark") (ThemeCfg.str "light") [] true
      swaggerUiPage rfl).2.2⟩

end VafastSwagger
